import Mathlib

/-!
Verification of the VirtualFrontDesk backend against its specification.

The Python sources under `backend/` are shallowly embedded below:
pure helper functions become Lean functions on `String` / `List Char`,
numeric decision logic on floats is modelled over `ℚ` (and `ℝ` for the
cosine-similarity algebra), the session store becomes explicit state
passing over an association list, and all external collaborators
(MySQL, ChromaDB, the OpenAI embedding/completion API) are modelled as
oracle fields of explicit environment records.  Python `str.lower`,
`str.strip`, `\s`, `\w` and `\d` are modelled at the ASCII level, which
is the alphabet every constant in the source uses.
-/

/-! ### Character and string utilities (ASCII models of Python's str methods) -/

/-- ASCII whitespace, the characters matched by Python's `str.strip()` and `\s`. -/
def isWsChar (c : Char) : Bool :=
  c = ' ' || c = '\t' || c = '\n' || c = '\r' || c = '\x0b' || c = '\x0c'

/-- Python `\w`: ASCII letters, digits and underscore. -/
def isWordChar (c : Char) : Bool :=
  c.isAlphanum || c = '_'

/-- `str.lower()` on a character list (ASCII case mapping). -/
def lowerData (s : List Char) : List Char :=
  s.map Char.toLower

/-- `str.lower()` on a string. -/
def lowerStr (s : String) : String :=
  ⟨lowerData s.data⟩

/-- Drop the given trailing characters: `str.rstrip(chars)`. -/
def rstripData (p : Char → Bool) (s : List Char) : List Char :=
  ((s.reverse).dropWhile p).reverse

/-- `str.strip()` on a character list: trim ASCII whitespace at both ends. -/
def pyStripData (s : List Char) : List Char :=
  rstripData isWsChar (s.dropWhile isWsChar)

/-- `str.strip()` on a string. -/
def pyStrip (s : String) : String :=
  ⟨pyStripData s.data⟩

/-- Is `needle` a contiguous substring of `hay`?  Python's `in` on strings. -/
def isSubstr (needle hay : List Char) : Bool :=
  match hay with
  | [] => needle.isEmpty
  | _ :: rest => needle.isPrefixOf hay || isSubstr needle rest

/-- Python `in` on two strings. -/
def strContains (hay needle : String) : Bool :=
  isSubstr needle.data hay.data

/-- Count non-overlapping occurrences, scanning from the left:
Python's `str.count(sub)` for a non-empty `sub`.  `fuel` bounds the
recursion and is instantiated with the haystack length. -/
def countOccsAux (kw : List Char) : Nat → List Char → Nat
  | 0, _ => 0
  | _, [] => 0
  | fuel + 1, s@(_ :: rest) =>
    if kw ≠ [] && kw.isPrefixOf s then
      1 + countOccsAux kw fuel (s.drop kw.length)
    else
      countOccsAux kw fuel rest

/-- Python `hay.count(kw)` for non-empty `kw`. -/
def countOccs (kw hay : List Char) : Nat :=
  countOccsAux kw hay.length hay

/-- Python's negative-index slice `l[-k:]`.  Note the Python quirk that
`l[-0:]` is the whole list, which the model reproduces. -/
def pySliceLast (k : Nat) (l : List α) : List α :=
  if k = 0 then l else l.drop (l.length - k)

/-- Python `str.split()` with no argument: split on whitespace runs,
discarding empty fields.  `fuel` bounds the recursion (instantiated with
the input length, which always suffices because every step consumes at
least one character). -/
def splitWsAux : Nat → List Char → List (List Char)
  | 0, _ => []
  | fuel + 1, s =>
    match s.dropWhile isWsChar with
    | [] => []
    | c :: rest =>
      let tok := c :: rest.takeWhile (fun x => !isWsChar x)
      tok :: splitWsAux fuel (rest.dropWhile (fun x => !isWsChar x))

/-- Python `str.split()` with no argument. -/
def splitWsData (s : List Char) : List (List Char) :=
  splitWsAux s.length s

/-! ### VersionDetector.py — revision-year extraction

The twelve `revision_patterns` regular expressions all have the shape
literal / character-class-plus / bounded-digit-run, so they are embedded
as token sequences interpreted by a deterministic matcher.  Maximal munch
is equivalent to the regex engine's backtracking here because in every
pattern the character class of a repetition is disjoint from the first
character the following token can accept. -/

/-- The `[:\s]+` character class. -/
def isColonWs (c : Char) : Bool := c = ':' || isWsChar c

/-- The `[,\s]+` character class. -/
def isCommaWs (c : Char) : Bool := c = ',' || isWsChar c

/-- The slash-or-dash character class of the numeric date pattern. -/
def isSlashDash (c : Char) : Bool := c = '/' || c = '-'

/-- One token of a revision detection pattern. -/
inductive Tok where
  /-- A literal string. -/
  | lit : List Char → Tok
  /-- One or more characters of a class (`\s+`, `[:\s]+`, `[,\s]+`). -/
  | cls1 : (Char → Bool) → Tok
  /-- Exactly one character of a class (the slash-or-dash class). -/
  | cls : (Char → Bool) → Tok
  /-- The captured `(\d{4})` year group. -/
  | yearCap : Tok
  /-- `\d{1,2}` (greedy, uncaptured). -/
  | d12 : Tok
  /-- The month-name alternation of the date pattern. -/
  | monthName : Tok

/-- The twelve month-name literals. -/
def monthNames : List (List Char) :=
  ["january".data, "february".data, "march".data, "april".data, "may".data,
   "june".data, "july".data, "august".data, "september".data, "october".data,
   "november".data, "december".data]

/-- Numeric value of a run of ASCII digits. -/
def digitsToNat (ds : List Char) : Nat :=
  ds.foldl (fun acc c => acc * 10 + (c.toNat - 48)) 0

/-- Match a token sequence at the head of `s`; return the captured year
(if the pattern contains `yearCap`) and the unconsumed remainder. -/
def matchToks : List Tok → List Char → Option (Option Nat × List Char)
  | [], s => some (none, s)
  | Tok.lit l :: ts, s =>
    if l.isPrefixOf s then matchToks ts (s.drop l.length) else none
  | Tok.cls1 p :: ts, s =>
    if (s.takeWhile p).isEmpty then none else matchToks ts (s.dropWhile p)
  | Tok.cls p :: ts, s =>
    match s with
    | c :: rest => if p c then matchToks ts rest else none
    | [] => none
  | Tok.yearCap :: ts, s =>
    match s with
    | a :: b :: c :: d :: rest =>
      if a.isDigit && b.isDigit && c.isDigit && d.isDigit then
        match matchToks ts rest with
        | some (_, rem) => some (some (digitsToNat [a, b, c, d]), rem)
        | none => none
      else none
    | _ => none
  | Tok.d12 :: ts, s =>
    match s with
    | a :: rest =>
      if a.isDigit then
        match rest with
        | b :: rest2 => if b.isDigit then matchToks ts rest2 else matchToks ts rest
        | [] => matchToks ts []
      else none
    | [] => none
  | Tok.monthName :: ts, s =>
    match monthNames.find? (fun m => m.isPrefixOf s) with
    | some m => matchToks ts (s.drop m.length)
    | none => none

/-- `re.finditer` semantics: scan left to right, on a match continue
after its end (matches never overlap), otherwise advance one character.
`fuel` bounds the recursion and is instantiated with the input length. -/
def scanMatchesAux (ts : List Tok) : Nat → List Char → List Nat
  | 0, _ => []
  | _, [] => []
  | fuel + 1, s@(_ :: rest) =>
    match matchToks ts s with
    | some (cap, rem) =>
      let tail := if rem.length < s.length then rem else rest
      cap.toList ++ scanMatchesAux ts fuel tail
    | none => scanMatchesAux ts fuel rest

/-- All captured years of one pattern over the input, `finditer` order. -/
def scanMatches (ts : List Tok) (s : List Char) : List Nat :=
  scanMatchesAux ts s.length s

/-- `VersionDetector.revision_patterns`, in source order. -/
def revisionPatterns : List (List Tok) :=
  [ [Tok.lit "revised".data, Tok.cls1 isWsChar, Tok.yearCap, Tok.cls1 isWsChar,
     Tok.lit "edition".data],
    [Tok.lit "revision".data, Tok.cls1 isColonWs, Tok.yearCap],
    [Tok.lit "revised".data, Tok.cls1 isColonWs, Tok.yearCap],
    [Tok.lit "updated".data, Tok.cls1 isColonWs, Tok.yearCap],
    [Tok.lit "effective".data, Tok.cls1 isColonWs, Tok.yearCap],
    [Tok.lit "approved".data, Tok.cls1 isColonWs, Tok.yearCap],
    [Tok.yearCap, Tok.cls1 isColonWs, Tok.lit "edition".data],
    [Tok.lit "version".data, Tok.cls1 isColonWs, Tok.yearCap],
    [Tok.lit "amended".data, Tok.cls1 isColonWs, Tok.yearCap],
    [Tok.lit "as".data, Tok.cls1 isWsChar, Tok.lit "of".data, Tok.cls1 isColonWs, Tok.yearCap],
    [Tok.monthName, Tok.cls1 isCommaWs, Tok.d12, Tok.cls1 isCommaWs, Tok.yearCap],
    [Tok.d12, Tok.cls isSlashDash, Tok.d12, Tok.cls isSlashDash, Tok.yearCap] ]

/-- `VersionDetector.extract_revision_year`: most recent year found by any
revision pattern in the lower-cased content, bounded to
`[1900, current_year + 5]`; `now` models `datetime.now().year`. -/
def extract_revision_year (now : Nat) (content : String) : Option Nat :=
  if content = "" then none
  else
    let contentLower := lowerData content.data
    let foundYears :=
      (revisionPatterns.map (fun p => scanMatches p contentLower)).flatten.filter
        (fun y => 1900 ≤ y && y ≤ now + 5)
    foundYears.max?

/-- Count occurrences of `pat` in `s` delimited by `\b` word boundaries,
tracking the previous character.  For a digit-only `pat` the matches can
never overlap, so this equals the `re.findall` count. -/
def countBoundedAux (pat : List Char) : Option Char → List Char → Nat
  | _, [] => 0
  | prev, s@(c :: rest) =>
    let prevOk := match prev with
      | none => true
      | some pc => !isWordChar pc
    let nextOk := match (s.drop pat.length).head? with
      | none => true
      | some nc => !isWordChar nc
    let hit := prevOk && pat.isPrefixOf s && nextOk
    (if hit then 1 else 0) + countBoundedAux pat (some c) rest

/-- Word-boundary-delimited occurrence count (`re.findall(rf'\b{pat}\b', s)`). -/
def countBounded (pat s : List Char) : Nat :=
  countBoundedAux pat none s

/-- Result of `VersionDetector.extract_all_revision_info`. -/
structure RevisionInfo where
  year : Option Nat
  mentions : Nat
  has_revision_info : Bool
deriving DecidableEq, Repr

/-- `VersionDetector.extract_all_revision_info`: the revision year plus a
count of how often it recurs in the first 2000 characters. -/
def extract_all_revision_info (now : Nat) (content : String) : RevisionInfo :=
  let revisionYear := extract_revision_year now content
  let contentStart := lowerData (content.data.take 2000)
  let mentions := match revisionYear with
    | some y => countBounded (toString y).data contentStart
    | none => 0
  ⟨revisionYear, mentions, revisionYear.isSome⟩

/-! ### VersionDetector.py — document typing, grouping and archive ranking -/

/-- `VersionDetector.program_identifiers`, in source (dict insertion) order. -/
def program_identifiers : List (String × List String) :=
  [ ("bsit", ["bachelor of science in information technology", "bsit", "information technology"]),
    ("bsba_om", ["operations management", "bsba om", "bsba-om"]),
    ("bsba_fm", ["financial management", "bsba fm", "bsba-fm"]),
    ("bsba_mm", ["marketing management", "bsba mm", "bsba-mm"]),
    ("bsentrep", ["entrepreneurship", "bsentrep", "bs entrep"]),
    ("bsed_math", ["secondary education", "mathematics", "bsed math", "bsed-math"]),
    ("bsed_english", ["secondary education", "english", "bsed english", "bsed-eng"]),
    ("beed", ["elementary education", "beed"]),
    ("act_network", ["networking", "act network"]),
    ("act_data", ["data engineering", "act data"]),
    ("act_appdev", ["applications development", "act app"]),
    ("tcp", ["teacher certificate program", "tcp"]),
    ("shs", ["senior high school", "shs subjects"]) ]

/-- `VersionDetector.document_type_keywords`, in source order. -/
def document_type_keywords : List (String × List String) :=
  [ ("student_handbook",
     ["student handbook", "student affairs", "code of conduct",
      "admission policies", "grading system", "enrollment",
      "disciplinary measures", "higher education department"]),
    ("student_council",
     ["student council", "sc constitution", "council officers",
      "student government", "sc elections"]) ]

/-- `VersionDetector._detect_program_type`: first program whose keyword
score over the first 3000 content characters (+2 per keyword present) and
the document name (+5 per keyword present) reaches 5. -/
def detect_program_type (content name : String) : Option String :=
  let contentSample := lowerData (content.data.take 3000)
  let nameLower := lowerData name.data
  (program_identifiers.find? (fun pk =>
    let score := (pk.2.map (fun kw =>
      (if isSubstr kw.data contentSample then 2 else 0) +
      (if isSubstr kw.data nameLower then 5 else 0))).sum
    5 ≤ score)).map Prod.fst

/-- First key of maximal value in an association list, mirroring Python's
`max(d, key=d.get)` over an insertion-ordered dict. -/
def argmaxFirst (l : List (String × Nat)) : Option (String × Nat) :=
  l.foldl (fun best p =>
    match best with
    | none => some p
    | some b => if p.2 > b.2 then some p else some b) none

/-- `VersionDetector._detect_document_type`: course documents map to
`course_<program>` or `course_unknown`; handbook-like documents are
scored against the two handbook keyword groups (occurrence count in the
first 5000 characters, doubled, plus 5 for a name hit). -/
def detect_document_type (content name doc_type : String) : String :=
  let contentSample := lowerData (content.data.take 5000)
  let nameLower := lowerData name.data
  if doc_type = "course" then
    match detect_program_type content name with
    | some program => "course_" ++ program
    | none => "course_unknown"
  else
    let typeScores := document_type_keywords.map (fun pk =>
      (pk.1, (pk.2.map (fun kw =>
        countOccs kw.data contentSample * 2 +
        (if isSubstr kw.data nameLower then 5 else 0))).sum))
    match argmaxFirst typeScores with
    | some (k, v) => if 0 < v then k else "unknown"
    | none => "unknown"

/-- A collected source document as assembled by the sync pipeline
(`documents_data` entries).  `updated_at` is a database timestamp,
modelled as a natural number. -/
structure SrcDoc where
  id : String
  name : String
  content : String
  type : String
  updated_at : Nat
deriving DecidableEq, Repr

/-- Append `d` to the group keyed `k`, preserving dict insertion order. -/
def addToGroup (k : String) (d : SrcDoc) :
    List (String × List SrcDoc) → List (String × List SrcDoc)
  | [] => [(k, [d])]
  | (k', ds) :: rest =>
    if k' = k then (k', ds ++ [d]) :: rest else (k', ds) :: addToGroup k d rest

/-- `VersionDetector._group_similar_documents`: bucket documents by the
compound key `<type>_<detected-type>`. -/
def group_similar_documents (docs : List SrcDoc) : List (String × List SrcDoc) :=
  docs.foldl (fun groups d =>
    addToGroup (d.type ++ "_" ++ detect_document_type d.content d.name d.type) d groups) []

/-- One document enriched with its revision information, as built inside
`determine_archive_status` for multi-document groups (`docs_with_info`
entries; a missing year is replaced by `0`). -/
structure RankedDoc where
  id : String
  name : String
  year : Nat
  mentions : Nat
  updated_at : Nat
  has_revision_info : Bool
deriving DecidableEq, Repr

/-- Build the `docs_with_info` entry for one document. -/
def enrichDoc (now : Nat) (d : SrcDoc) : RankedDoc :=
  let info := extract_all_revision_info now d.content
  ⟨d.id, d.name, info.year.getD 0, info.mentions, d.updated_at, info.has_revision_info⟩

/-- The Python sort key `(has_revision_info, year, mentions, updated_at)`
with `False < True` mapped to `0 < 1`. -/
def rankKey (r : RankedDoc) : Nat × Nat × Nat × Nat :=
  (if r.has_revision_info then 1 else 0, r.year, r.mentions, r.updated_at)

/-- Lexicographic `≤` on the four-component sort key. -/
def lexLe4 (x y : Nat × Nat × Nat × Nat) : Bool :=
  decide (x.1 < y.1) ||
    (decide (x.1 = y.1) && (decide (x.2.1 < y.2.1) ||
      (decide (x.2.1 = y.2.1) && (decide (x.2.2.1 < y.2.2.1) ||
        (decide (x.2.2.1 = y.2.2.1) && decide (x.2.2.2 ≤ y.2.2.2))))))

/-- `a` ranks at least as high as `b`: the relation under which Python's
stable `list.sort(key=…, reverse=True)` sorts a group (descending with
ties left in original order, exactly `List.insertionSort`'s behaviour for
a lax total relation). -/
def rankGE (a b : RankedDoc) : Prop :=
  lexLe4 (rankKey b) (rankKey a) = true

instance : DecidableRel rankGE := fun _ _ => instDecidableEqBool _ _

/-- Statuses assigned inside one multi-document group: index 0 of the
ranked list stays current, every later index is archived. -/
def rankedStatuses (ranked : List RankedDoc) : List (String × Bool) :=
  match ranked with
  | [] => []
  | top :: rest => (top.id, false) :: rest.map (fun r => (r.id, true))

/-- Per-group body of `VersionDetector.determine_archive_status`:
a singleton group's document is current, a larger group is ranked
descending by `rankKey` and everything below the top is archived. -/
def archiveGroupStatuses (now : Nat) (docs : List SrcDoc) : List (String × Bool) :=
  match docs with
  | [d] => [(d.id, false)]
  | _ => rankedStatuses (List.insertionSort rankGE (docs.map (enrichDoc now)))

/-- `VersionDetector.determine_archive_status`: the archive-status map
(document id to archived flag), accumulated group by group in grouping
order. -/
def determine_archive_status (now : Nat) (docs : List SrcDoc) : List (String × Bool) :=
  (group_similar_documents docs).flatMap (fun g => archiveGroupStatuses now g.2)

/-! ### VersionDetector.py — query temporal classification -/

/-- Scan for `\b(19\d{2}|20\d{2})\b` matches, left to right, tracking the
previous character for the leading word boundary.  Matches can never
overlap (a second start inside a match would sit after a digit, failing
`\b`), so this is exactly the `re.findall` match list. -/
def scanYears : Option Char → List Char → List Nat
  | _, [] => []
  | prev, s@(c :: rest) =>
    let prevOk := match prev with
      | none => true
      | some pc => !isWordChar pc
    let hit := match s with
      | a :: b :: c2 :: d :: tl =>
        if ((a = '1' && b = '9') || (a = '2' && b = '0')) && c2.isDigit && d.isDigit then
          match tl.head? with
          | none => some (digitsToNat [a, b, c2, d])
          | some nc => if isWordChar nc then none else some (digitsToNat [a, b, c2, d])
        else none
      | _ => none
    match prevOk, hit with
    | true, some y => y :: scanYears (some c) rest
    | _, _ => scanYears (some c) rest

/-- All years matched by `re.findall(r'\b(19\d{2}|20\d{2})\b', query)`. -/
def yearMatches (query : String) : List Nat :=
  scanYears none query.data

/-- `specific_year = int(year_matches[0]) if year_matches else None`. -/
def firstYearMatch (query : String) : Option Nat :=
  (yearMatches query).head?

/-- The historical keyword list of `should_include_archived`. -/
def historicalKeywords : List String :=
  ["last year", "previous", "old", "before", "was", "were",
   "history", "historical", "past", "earlier", "former",
   "previous version", "old version", "archived", "according to the",
   "based on the", "in the old", "what was"]

/-- The current keyword list of `should_include_archived`. -/
def currentKeywords : List String :=
  ["current", "now", "today", "present", "latest",
   "this year", "new", "updated", "recent"]

/-- Does the lower-cased query contain a historical keyword? -/
def hasHistoricalB (query : String) : Bool :=
  historicalKeywords.any (fun kw => isSubstr kw.data (lowerData query.data))

/-- Does the lower-cased query contain a current keyword? -/
def hasCurrentB (query : String) : Bool :=
  currentKeywords.any (fun kw => isSubstr kw.data (lowerData query.data))

/-- The result record of `VersionDetector.should_include_archived`. -/
structure ArchiveParams where
  include_archived : Bool
  archived_only : Bool
  specific_year : Option Nat
  prefer_year : Bool
deriving DecidableEq, Repr

/-- `VersionDetector.should_include_archived`: a literal year in the
query dominates; otherwise historical/current keyword membership picks
archived-only, include-both or current-only retrieval. -/
def should_include_archived (query : String) : ArchiveParams :=
  match firstYearMatch query with
  | some y => ⟨true, false, some y, true⟩
  | none =>
    if hasHistoricalB query && !hasCurrentB query then ⟨true, true, none, false⟩
    else if hasHistoricalB query then ⟨true, false, none, false⟩
    else ⟨false, false, none, false⟩

/-! ### KnowledgeRepository.py — program tagging, chunk metadata, sync -/

/-- `KnowledgeRepository._extract_program_identifier`'s `program_patterns`
table, in source order (note: unlike the classifier's table it has no
`shs` entry). -/
def program_patterns : List (String × List String) :=
  [ ("bsit", ["bachelor of science in information technology", "information technology", "bsit"]),
    ("bsba_om", ["operations management", "bsba om", "bsba-om"]),
    ("bsba_fm", ["financial management", "bsba fm", "bsba-fm"]),
    ("bsba_mm", ["marketing management", "bsba mm", "bsba-mm"]),
    ("bsentrep", ["entrepreneurship", "bsentrep", "bs entrep"]),
    ("bsed_math", ["bachelor of secondary education (math)", "mathematics education"]),
    ("bsed_english", ["bachelor of secondary education (english)", "english education"]),
    ("beed", ["bachelor of elementary education", "elementary education", "beed"]),
    ("act_network", ["act - networking", "data communications and networking"]),
    ("act_data", ["act - data engineering", "data management"]),
    ("act_appdev", ["act - applications development", "applications development"]),
    ("tcp", ["teacher certificate program", "tcp"]) ]

/-- `KnowledgeRepository._extract_program_identifier`: first pattern found
as a substring of the lower-cased document name, then of the first 2000
lower-cased content characters; `none` when nothing matches (the source
returns Python `None` despite its `str` annotation). -/
def extract_program_identifier (content document_name : String) : Option String :=
  let nameLower := lowerData document_name.data
  let contentSample := lowerData (content.data.take 2000)
  match (program_patterns.find? (fun pk =>
      pk.2.any (fun pat => isSubstr pat.data nameLower))).map Prod.fst with
  | some k => some k
  | none =>
    (program_patterns.find? (fun pk =>
      pk.2.any (fun pat => isSubstr pat.data contentSample))).map Prod.fst

/-- The archive-status entry `_chunk_and_store_documents` reads
(`archive_status.get(doc_id, {'is_archived': False})`). -/
structure ArchiveInfo where
  is_archived : Bool
deriving DecidableEq, Repr

/-- Metadata written for one chunk by
`KnowledgeRepository._chunk_and_store_documents`.  `revision_year` and
`program_id` are stored exactly as computed, so both can be absent. -/
structure ChunkMeta where
  source_id : String
  data_type : String
  document_name : String
  chunk_index : Nat
  is_archived : Bool
  document_version : String
  revision_year : Option Nat
  program_id : Option String
deriving DecidableEq, Repr

/-- The metadata record built for chunk `idx` of document `d`. -/
def chunkMetaFor (now : Nat) (d : SrcDoc) (is_archived : Bool) (idx : Nat) : ChunkMeta :=
  let revisionInfo := extract_all_revision_info now d.content
  let programId := if d.type = "course" then extract_program_identifier d.content d.name else none
  ⟨d.id, d.type, d.name, idx, is_archived,
   if is_archived then "archived" else "current",
   revisionInfo.year, programId⟩

/-- The `(chunk text, metadata, chunk id)` triples appended for one
document.  `splitText` models the external
`RecursiveCharacterTextSplitter.split_text` (a third-party dependency at
the system boundary). -/
def docChunkTriples (splitText : String → List String) (now : Nat)
    (archiveStatus : String → Option ArchiveInfo) (d : SrcDoc) :
    List (String × ChunkMeta × String) :=
  let isArchived := ((archiveStatus d.id).getD ⟨false⟩).is_archived
  (splitText d.content).enum.map (fun p =>
    (p.2, chunkMetaFor now d isArchived p.1, d.id ++ "_chunk_" ++ toString p.1))

/-- `KnowledgeRepository._chunk_and_store_documents`: the `documents`,
`metadata` and `ids` lists accumulated over all collected documents. -/
def chunk_and_store_documents (splitText : String → List String) (now : Nat)
    (documentsData : List SrcDoc) (archiveStatus : String → Option ArchiveInfo) :
    List String × List ChunkMeta × List String :=
  let triples := documentsData.flatMap (docChunkTriples splitText now archiveStatus)
  (triples.map (fun t => t.1), triples.map (fun t => t.2.1), triples.map (fun t => t.2.2))

/-- The externally visible steps of `sync_data_to_chromadb`, in the order
the source performs them. -/
inductive SyncStep where
  | cleanupCollections
  | archiveWriteback
  | deleteCollection
  | createCollection
  | upsertDocuments
  | writeSyncTime
deriving DecidableEq, Repr

/-- The world `sync_data_to_chromadb` interacts with: whether the MySQL
connection opens, and the outcome of the document-collection step
(`collect_all_documents`, whose database/web reads are external). -/
structure SyncEnv where
  dbOk : Bool
  collectedDocuments : List String
  collectedMetadata : List ChunkMeta
  collectedIds : List String
  collectedArchiveStatus : List (String × Bool)

/-- `KnowledgeRepository.sync_data_to_chromadb`: returns the success flag
together with the store/database steps that were performed.  With no
database connection it returns `False` immediately; with an empty
collected-document list it returns `False` right after the collection
cleanup, before touching the archive flags or the vector store. -/
def sync_data_to_chromadb (env : SyncEnv) : Bool × List SyncStep :=
  if !env.dbOk then (false, [])
  else if env.collectedDocuments.isEmpty then
    (false, [SyncStep.cleanupCollections])
  else
    (true, [SyncStep.cleanupCollections, SyncStep.archiveWriteback,
            SyncStep.deleteCollection, SyncStep.createCollection,
            SyncStep.upsertDocuments, SyncStep.writeSyncTime])

/-! ### ChromaDBService.py — cosine similarity

`calculate_cosine_similarity` computes with NumPy floats; the algebraic
contract is modelled over the real numbers. -/

/-- `np.dot` on two equal-length 1-D vectors: sum of pairwise products. -/
def dotProd (v w : List ℝ) : ℝ :=
  (List.zipWith (· * ·) v w).sum

/-- `np.linalg.norm`: the Euclidean norm. -/
noncomputable def euclidNorm (v : List ℝ) : ℝ :=
  Real.sqrt (dotProd v v)

/-- `ChromaDBService.calculate_cosine_similarity`: dot product over the
product of norms, with an explicit `0.0` guard when either norm is zero. -/
noncomputable def calculate_cosine_similarity (v w : List ℝ) : ℝ :=
  if euclidNorm v = 0 ∨ euclidNorm w = 0 then 0
  else dotProd v w / (euclidNorm v * euclidNorm w)

/-! ### SessionManager.py — the conversation session store

The thread lock serialises every operation, so the store is modelled as
a sequential state machine over an insertion-ordered association list
(Python dict).  Wall-clock reads (`datetime.now()`) become an explicit
`now` argument. -/

/-- One history entry. -/
structure Msg where
  role : String
  content : String
deriving DecidableEq, Repr

/-- One session record. -/
structure Session where
  history : List Msg
  user_id : Option String
  created_at : Nat
  last_accessed : Nat
deriving DecidableEq, Repr

/-- The session store with its configuration. -/
structure SessionManager where
  max_history_per_session : Nat
  sessions : List (String × Session)
deriving DecidableEq, Repr

/-- Dict lookup. -/
def lookupSession (m : SessionManager) (sid : String) : Option Session :=
  m.sessions.lookup sid

/-- Dict assignment for an existing key (position preserved). -/
def setSession (m : SessionManager) (sid : String) (s : Session) : SessionManager :=
  { m with sessions := m.sessions.map (fun p => if p.1 = sid then (sid, s) else p) }

/-- `SessionManager.create_session` with an explicit id: always installs
a fresh empty-history session, replacing any existing one. -/
def create_session (m : SessionManager) (sid : String) (user : Option String)
    (now : Nat) : SessionManager :=
  let fresh : Session := ⟨[], user, now, now⟩
  if (lookupSession m sid).isSome then setSession m sid fresh
  else { m with sessions := m.sessions ++ [(sid, fresh)] }

/-- `SessionManager.get_session_history`: a copy of the history (empty
for an unknown id), refreshing `last_accessed` on a hit. -/
def get_session_history (m : SessionManager) (sid : String) (now : Nat) :
    List Msg × SessionManager :=
  match lookupSession m sid with
  | none => ([], m)
  | some s => (s.history, setSession m sid { s with last_accessed := now })

/-- `SessionManager.add_to_history`: `False` and no change for an unknown
id; otherwise append and trim to the most recent
`2 * max_history_per_session` entries. -/
def add_to_history (m : SessionManager) (sid role content : String) (now : Nat) :
    Bool × SessionManager :=
  match lookupSession m sid with
  | none => (false, m)
  | some s =>
    let appended := s.history ++ [⟨role, content⟩]
    let maxMessages := m.max_history_per_session * 2
    let trimmed :=
      if maxMessages < appended.length then pySliceLast maxMessages appended else appended
    (true, setSession m sid { s with history := trimmed, last_accessed := now })

/-- `SessionManager.update_history`: bulk replacement, trimmed to the
most recent `2 * max_history_per_session` entries. -/
def update_history (m : SessionManager) (sid : String) (history : List Msg)
    (now : Nat) : Bool × SessionManager :=
  match lookupSession m sid with
  | none => (false, m)
  | some s =>
    let maxMessages := m.max_history_per_session * 2
    let trimmed := if history.isEmpty then [] else pySliceLast maxMessages history
    (true, setSession m sid { s with history := trimmed, last_accessed := now })

/-- `SessionManager.session_exists`. -/
def session_exists (m : SessionManager) (sid : String) : Bool :=
  (lookupSession m sid).isSome

/-- A history-mutating operation, for stating the bounded-size invariant
over arbitrary operation sequences. -/
inductive SMOp where
  | add (sid role content : String) (now : Nat)
  | update (sid : String) (history : List Msg) (now : Nat)
deriving Repr

/-- Apply one operation to the store. -/
def applySMOp (m : SessionManager) : SMOp → SessionManager
  | SMOp.add sid role content now => (add_to_history m sid role content now).2
  | SMOp.update sid history now => (update_history m sid history now).2

/-- Apply a sequence of operations. -/
def applySMOps (m : SessionManager) (ops : List SMOp) : SessionManager :=
  ops.foldl applySMOp m

/-- Does every stored history respect the
`2 * max_history_per_session` bound? -/
def sessionInvB (m : SessionManager) : Bool :=
  m.sessions.all (fun p => p.2.history.length ≤ 2 * m.max_history_per_session)

/-! ### VirtualFrontDesk.py — language detection and short-circuit phrase sets -/

/-- `VirtualFrontDesk._TAGALOG_MARKERS`. -/
def tagalogMarkers : List String :=
  ["ako", "ikaw", "siya", "kami", "tayo", "kayo", "sila",
   "ko", "mo", "niya", "namin", "natin", "ninyo", "nila",
   "akin", "iyo", "kanya", "amin", "atin", "inyo", "kanila",
   "ang", "ng", "sa", "na", "at", "ay", "ni", "kay", "para",
   "kung", "pero", "kaya", "dahil", "kapag", "nang",
   "ano", "sino", "saan", "kailan", "bakit", "paano",
   "ito", "iyon", "dito", "doon", "nito", "noon",
   "mga", "rin", "din", "lang", "po", "ho",
   "hindi", "oo", "wala", "mayroon", "meron",
   "gusto", "puwede", "pwede", "kailangan",
   "magkano", "ilang", "gaano",
   "salamat", "kumusta", "magandang", "maayos",
   "tanong", "sagot", "tulong", "impormasyon",
   "enrolla", "enrolled", "pasok", "klase"]

/-- `VirtualFrontDesk._detect_language`: the share of distinct
whitespace-separated tokens of the lower-cased prompt that are Tagalog
markers decides `tagalog` (at least 0.4), `mixed` (at least 0.15) or
`english`.  The float ratio comparisons are modelled as exact rational
comparisons. -/
def detect_language (prompt : String) : String :=
  let tokens := (splitWsData (lowerData prompt.data)).eraseDups
  let hits := (tokens.filter (fun t => tagalogMarkers.any (fun mk => mk.data = t))).length
  let total := max tokens.length 1
  if 2 * total ≤ 5 * hits then "tagalog"
  else if 3 * total ≤ 20 * hits then "mixed"
  else "english"

/-- `VirtualFrontDesk.closing_keywords`. -/
def closingKeywords : List String :=
  ["bye", "goodbye", "see you", "good bye",
   "paalam", "hanggang sa muli", "babay"]

/-- `VirtualFrontDesk.soft_closing_phrases`. -/
def softClosingPhrases : List String :=
  ["okay thanks", "ok thanks", "thank you", "thanks",
   "okay", "ok", "done", "alright",
   "salamat", "maraming salamat", "sige", "sige na",
   "ayos na", "tapos na", "okay na", "ok na", "ok lang"]

/-- `VirtualFrontDesk.confirmation_phrases`. -/
def confirmationPhrases : List String :=
  ["is that correct", "is that right", "are you sure", "are you certain",
   "is that accurate", "is that true", "are you confident", "is that confirmed",
   "really", "are you sure about that", "is that so", "can you confirm",
   "you sure", "is this correct", "is this right", "correct?", "right?",
   "tama ba", "tama ba iyon", "tama ba iyan", "sigurado ka ba",
   "sigurado ba", "totoo ba", "totoo ba iyon", "totoo ba iyan",
   "kumpirmado ba", "pwede mo bang kumpirmahin", "talaga ba",
   "talaga", "ganon ba", "ganoon ba", "tama ba yun", "tama ba yan"]

/-- The normalisation of `_is_closing_message`:
`prompt.lower().strip().rstrip("!")`. -/
def normaliseClosing (prompt : String) : String :=
  ⟨rstripData (fun c => c = '!') (pyStripData (lowerData prompt.data))⟩

/-- `VirtualFrontDesk._is_closing_message`: exact membership of the
normalised prompt in either closing phrase set. -/
def is_closing_message (prompt : String) : Bool :=
  closingKeywords.contains (normaliseClosing prompt) ||
    softClosingPhrases.contains (normaliseClosing prompt)

/-- The normalisation of `_is_confirmation_query`:
`prompt.lower().strip().rstrip("?!.")`. -/
def normaliseConfirmation (prompt : String) : String :=
  ⟨rstripData (fun c => c = '?' || c = '!' || c = '.') (pyStripData (lowerData prompt.data))⟩

/-- The most recent assistant message of a history, if any
(`_get_last_assistant_message`). -/
def lastAssistantMessage (history : List Msg) : Option String :=
  ((history.reverse).find? (fun msg => msg.role = "assistant")).map Msg.content

/-- `VirtualFrontDesk._is_confirmation_query`: requires a prior assistant
message and exact membership in the validation phrase set. -/
def is_confirmation_query (prompt : String) (history : List Msg) : Bool :=
  !history.isEmpty &&
    history.any (fun m => m.role = "assistant") &&
    confirmationPhrases.contains (normaliseConfirmation prompt)

/-- `VirtualFrontDesk.program_keywords` (the orchestrator's own table, in
source order; it has no `shs` entry). -/
def vfdProgramKeywords : List (String × List String) :=
  [ ("bsba_om", ["operations management", "bsba om", "bsba-om"]),
    ("bsba_fm", ["financial management", "bsba fm", "bsba-fm"]),
    ("bsba_mm", ["marketing management", "bsba mm", "bsba-mm"]),
    ("bsentrep", ["entrepreneurship", "bsentrep", "bs entrep"]),
    ("bsit", ["bsit", "information technology", "it student"]),
    ("bsed_math", ["bsed math", "bsed-math", "mathematics teacher"]),
    ("bsed_english", ["bsed english", "bsed-eng", "english teacher"]),
    ("beed", ["beed", "elementary education", "elementary teacher"]),
    ("act_network", ["networking", "act network", "act-network"]),
    ("act_data", ["data engineering", "act data", "act-data"]),
    ("act_appdev", ["applications development", "act app"]),
    ("tcp", ["teacher certificate", "tcp"]) ]

/-- `VirtualFrontDesk._extract_program_from_query`: first program with a
keyword contained in the lower-cased prompt. -/
def extract_program_from_query (prompt : String) : Option String :=
  (vfdProgramKeywords.find? (fun pk =>
    pk.2.any (fun kw => isSubstr kw.data (lowerData prompt.data)))).map Prod.fst

/-! ### VirtualFrontDesk.py — retrieval and relevance filtering

ChromaDB distances are floats; they are modelled as rationals, under
which `similarity = 1 - distance/2` and the threshold comparisons are
exact. -/

/-- `VirtualFrontDesk.RELEVANCE_THRESHOLD` (0.30). -/
def RELEVANCE_THRESHOLD : ℚ := 30 / 100

/-- `VirtualFrontDesk.TRANSLATED_RELEVANCE_THRESHOLD` (0.25). -/
def TRANSLATED_RELEVANCE_THRESHOLD : ℚ := 25 / 100

/-- `VirtualFrontDesk.RETRIEVAL_TOP_K`. -/
def RETRIEVAL_TOP_K : Nat := 15

/-- The metadata fields of a retrieved chunk that the retrieval path
inspects. -/
structure QRMeta where
  revision_year : Option Nat
deriving DecidableEq, Repr

/-- A ChromaDB query result (`documents`/`metadatas`/`distances`, each a
list per query text; the orchestrator always sends one query text). -/
structure QueryResult where
  documents : List (List String)
  metadatas : List (List QRMeta)
  distances : List (List ℚ)
deriving DecidableEq, Repr

/-- `VirtualFrontDesk._empty_result`. -/
def emptyResult : QueryResult := ⟨[[]], [[]], [[]]⟩

/-- `doc_list`: `docs[0]` when present, else `[]`. -/
def firstRow (rows : List (List α)) : List α :=
  rows.head?.getD []

/-- The admission loop of `_extract_context_from_results`: walk documents
and distances in parallel (the source indexes the distance list by the
document's position; a document beyond the end of the distance list is
admitted unconditionally); a blank document is always skipped; otherwise
the chunk is kept exactly when `1 - distance/2` is not below the
threshold.  Kept chunks are stripped. -/
def extractLoop (threshold : ℚ) : List String → List ℚ → List String
  | [], _ => []
  | doc :: docs, [] =>
    (if pyStrip doc = "" then [] else [pyStrip doc]) ++ extractLoop threshold docs []
  | doc :: docs, dist :: dists =>
    (if pyStrip doc = "" then []
     else if 1 - dist / 2 < threshold then []
     else [pyStrip doc]) ++ extractLoop threshold docs dists

/-- `VirtualFrontDesk._extract_context_from_results`. -/
def extract_context_from_results (results : QueryResult) (threshold : ℚ) : String :=
  String.intercalate "\n\n"
    (extractLoop threshold (firstRow results.documents) (firstRow results.distances))

/-- `VirtualFrontDesk._merge_context_strings`: split both context strings
on blank lines, strip, and keep the first occurrence of each chunk. -/
def merge_context_strings (primary secondary : String) : String :=
  let pieces := (primary.splitOn "\n\n" ++ secondary.splitOn "\n\n").map pyStrip
  let merged := pieces.foldl (fun acc c =>
    if c ≠ "" && !acc.contains c then acc ++ [c] else acc) []
  String.intercalate "\n\n" merged

/-- `VirtualFrontDesk._merge_contexts`. -/
def merge_contexts (primary secondary : QueryResult) (threshold : ℚ) : String :=
  merge_context_strings (extract_context_from_results primary threshold)
    (extract_context_from_results secondary threshold)

/-- The reordering loop of `_prioritise_year_chunks`: the same admission
rule as `extractLoop`, but chunks whose `revision_year` metadata equals
the target year are collected ahead of the rest. -/
def prioritiseLoop (threshold : ℚ) (targetYear : Nat) :
    List String → List ℚ → List QRMeta → List String × List String
  | [], _, _ => ([], [])
  | doc :: docs, dists, metas =>
    let rest := prioritiseLoop threshold targetYear docs dists.tail metas.tail
    let admitted : Bool :=
      if pyStrip doc = "" then false
      else match dists.head? with
        | some dist => !decide (1 - dist / 2 < threshold)
        | none => true
    if admitted then
      match metas.head? with
      | some meta =>
        if meta.revision_year = some targetYear then (pyStrip doc :: rest.1, rest.2)
        else (rest.1, pyStrip doc :: rest.2)
      | none => (rest.1, pyStrip doc :: rest.2)
    else rest

/-- `VirtualFrontDesk._prioritise_year_chunks`. -/
def prioritise_year_chunks (results : QueryResult) (targetYear : Nat)
    (threshold : ℚ) : String :=
  let p := prioritiseLoop threshold targetYear (firstRow results.documents)
    (firstRow results.distances) (firstRow results.metadatas)
  String.intercalate "\n\n" (p.1 ++ p.2)

/-! ### VirtualFrontDesk.py — environment model and `process_prompt`

External collaborators (the progress state of the background sync task,
the vector collection, and the completion/embedding API) are modelled as
an explicit environment record; each completion/embedding/vector-store
interaction is recorded as an effect so that "the completion model is
not invoked" is a statement about the effect trace.  The net reply of
`_query_collection` (including its force-refresh and broad-filter
retries against the external store) is absorbed into the `queryResult`
oracle.  The sync progress attribute read by `_is_sync_ready` is not
defined by the `KnowledgeRepository` revision in the sources; its
`status` string is modelled from the specification's progress state
machine. -/

/-- The metadata filters the orchestrator sends to ChromaDB: an
`is_archived` equality, or its conjunction with a `program_id` equality. -/
inductive WhereF where
  | archivedEq (b : Bool)
  | andArchProg (b : Bool) (programId : String)
deriving DecidableEq, Repr

/-- An external interaction of `process_prompt`. -/
inductive Effect where
  | embedding
  | completion
  | vectorQuery
deriving DecidableEq, Repr

/-- The external world of one `process_prompt` call. -/
structure Env where
  /-- Outcome of `detect_intent` (embedding API plus argmax, with its
  internal `general` fallback). -/
  intentResult : String
  /-- `knowledge_repo.progress["status"]` — modelled from the spec's
  progress state machine (`idle`/`running`/`completed`/`error`). -/
  syncStatus : String
  /-- `get_collection().count()`; `none` models a raised exception. -/
  collectionCount : Option Nat
  /-- Completion-API reply of `_generate_closing_response`. -/
  llmClosing : String
  /-- Completion-API reply of `_generate_confirmation_response`. -/
  llmConfirm : String
  /-- Completion-API reply of `rewrite_query_for_retrieval`
  (`none` models a raised exception). -/
  llmRewrite : Option String
  /-- Completion-API reply of `_translate_to_english`
  (`none` models a raised exception). -/
  llmTranslate : Option String
  /-- Completion-API reply of the final grounded answer call. -/
  llmAnswer : String
  /-- Net result of `_query_collection` for a query text and filter. -/
  queryResult : String → WhereF → QueryResult

/-- `VirtualFrontDesk._is_sync_ready`: sync status `completed` and more
than one stored item; any collection error reads as not ready. -/
def is_sync_ready (env : Env) : Bool :=
  if env.syncStatus = "completed" then
    match env.collectionCount with
    | some c => decide (1 < c)
    | none => false
  else false

/-- The threshold picked in `_retrieve_context`: the lower translated
threshold exactly when the translated query differs from the rewritten
retrieval query. -/
def activeThreshold (retrievalQuery translatedQuery : String) : ℚ :=
  if translatedQuery ≠ retrievalQuery then TRANSLATED_RELEVANCE_THRESHOLD
  else RELEVANCE_THRESHOLD

/-- The archived-content filter (`_archived_filter`). -/
def archivedFilterFor (programId : Option String) : WhereF :=
  match programId with
  | some p => WhereF.andArchProg true p
  | none => WhereF.archivedEq true

/-- `_fetch_archived_context`: query with the archived filter, filter by
relevance, and reorder by the requested year when one was given. -/
def fetchArchivedContext (env : Env) (q : String) (programId : Option String)
    (specificYear : Option Nat) (threshold : ℚ) : String × List Effect :=
  let results := env.queryResult q (archivedFilterFor programId)
  let raw := extract_context_from_results results threshold
  let raw' := match specificYear with
    | some y => if raw ≠ "" then prioritise_year_chunks results y threshold else raw
    | none => raw
  (raw', [Effect.vectorQuery])

/-- `_fetch_current_context`: with a detected program, merge a
program-scoped and an unscoped current query; otherwise a single
current-only query. -/
def fetchCurrentContext (env : Env) (q : String) (programId : Option String)
    (threshold : ℚ) : String × List Effect :=
  match programId with
  | some p =>
    let programResults := env.queryResult q (WhereF.andArchProg false p)
    let generalResults := env.queryResult q (WhereF.archivedEq false)
    (merge_contexts programResults generalResults threshold,
     [Effect.vectorQuery, Effect.vectorQuery])
  | none =>
    (extract_context_from_results (env.queryResult q (WhereF.archivedEq false)) threshold,
     [Effect.vectorQuery])

/-- `VirtualFrontDesk._retrieve_context`: strategy selection between
current-only, archived-only (with current fallback) and include-both;
returns the context, the archived-content flag and the effect trace. -/
def retrieve_context (env : Env) (retrievalQuery prompt translatedQuery : String) :
    String × Bool × List Effect :=
  let ap := should_include_archived prompt
  let programId := extract_program_from_query prompt
  let threshold := activeThreshold retrievalQuery translatedQuery
  let q := translatedQuery
  if !ap.include_archived then
    let c := fetchCurrentContext env q programId threshold
    (c.1, false, c.2)
  else if ap.archived_only then
    let a := fetchArchivedContext env q programId ap.specific_year threshold
    if a.1 ≠ "" then (a.1, true, a.2)
    else
      let c := fetchCurrentContext env q programId threshold
      (c.1, false, a.2 ++ c.2)
  else
    let a := fetchArchivedContext env q programId ap.specific_year threshold
    let c := fetchCurrentContext env q programId threshold
    if a.1 ≠ "" then (merge_context_strings a.1 c.1, true, a.2 ++ c.2)
    else (c.1, false, a.2 ++ c.2)

/-- `VirtualFrontDesk.rewrite_query_for_retrieval`: the stripped
completion reply, falling back to the prompt when the reply is empty or
the call raises. -/
def rewrite_query_for_retrieval (env : Env) (prompt : String) : String :=
  match env.llmRewrite with
  | some reply => if pyStrip reply ≠ "" then pyStrip reply else prompt
  | none => prompt

/-- `VirtualFrontDesk._translate_to_english`: identity (and no API call)
for English input, otherwise the stripped completion reply with fallback
to the input. -/
def translate_to_english (env : Env) (text : String) : String × List Effect :=
  if detect_language text = "english" then (text, [])
  else
    match env.llmTranslate with
    | some reply => (if pyStrip reply ≠ "" then pyStrip reply else text, [Effect.completion])
    | none => (text, [Effect.completion])

/-- `VirtualFrontDesk._update_conversation_history`: append the user and
assistant turns and store the last 8 entries. -/
def update_conversation_history (mgr : SessionManager) (sid : String)
    (history : List Msg) (prompt aiResponse : String) (now : Nat) : SessionManager :=
  (update_history mgr sid
    (pySliceLast 8 (history ++ [⟨"user", prompt⟩, ⟨"assistant", aiResponse⟩])) now).2

/-- The canned still-loading reply, Tagalog variant. -/
def tagalogLoadingMessage : String :=
  "Nilo-load pa ng TLC ChatMate ang knowledge base. Mangyaring maghintay ng ilang sandali at subukan muli."

/-- The canned still-loading reply, English variant. -/
def englishLoadingMessage : String :=
  "TLC ChatMate is still loading the knowledge base. Please wait a moment and try again."

/-- The canned no-information reply, Tagalog variant. -/
def tagalogNoInfoMessage : String :=
  "Paumanhin, wala akong impormasyon tungkol sa paksang iyon sa aming mga rekord. Maaari kang pumunta sa registrar o makipag-ugnayan sa aming opisina para sa karagdagang tulong."

/-- The canned no-information reply, English variant. -/
def englishNoInfoMessage : String :=
  "I'm sorry, but I don't have information about that topic in our current records. You may visit the registrar or contact our office directly for further assistance."

/-- The request body of the chat endpoint. -/
structure PromptRequest where
  prompt : String
  conversationSession : String
  username : Option String
deriving DecidableEq, Repr

/-- The response body of the chat endpoint. -/
structure PromptResponse where
  success : Bool
  response : String
  requires_auth : Bool
  intent : Option String
deriving DecidableEq, Repr

/-- The tail of `process_prompt` once the sync-readiness guard has
passed: confirmation short-circuit, query rewriting, translation,
retrieval, and either the canned no-information reply or the grounded
completion call.  The effect list excludes the intent-detection
embedding recorded by the caller. -/
def processPromptReady (env : Env) (mgr : SessionManager) (sid : String)
    (history : List Msg) (prompt : String) (intent : String) (now : Nat) :
    PromptResponse × SessionManager × List Effect :=
  if is_confirmation_query prompt history && (lastAssistantMessage history).isSome then
    let resp := env.llmConfirm
    (⟨true, resp, false, some intent⟩,
     update_conversation_history mgr sid history prompt resp now,
     [Effect.completion])
  else
    let retrievalQuery := rewrite_query_for_retrieval env prompt
    let translated := translate_to_english env retrievalQuery
    let ret := retrieve_context env retrievalQuery prompt translated.1
    let effs := [Effect.completion] ++ translated.2 ++ ret.2.2
    if ret.1 = "" then
      let resp := if detect_language prompt = "tagalog" then tagalogNoInfoMessage
                  else englishNoInfoMessage
      (⟨true, resp, false, some intent⟩,
       update_conversation_history mgr sid history prompt resp now,
       effs)
    else
      let resp := env.llmAnswer
      (⟨true, resp, false, some intent⟩,
       update_conversation_history mgr sid history prompt resp now,
       effs ++ [Effect.completion])

/-- `VirtualFrontDesk.process_prompt`: intent detection, session
creation, the closing short-circuit, the sync-readiness guard, and the
ready tail, with the session store threaded and every external call
recorded in the effect trace. -/
def process_prompt (env : Env) (mgr0 : SessionManager) (req : PromptRequest)
    (now : Nat) : PromptResponse × SessionManager × List Effect :=
  let prompt := pyStrip req.prompt
  let sid := req.conversationSession
  let intent := env.intentResult
  let mgr1 := if session_exists mgr0 sid then mgr0
              else create_session mgr0 sid req.username now
  let hm := get_session_history mgr1 sid now
  let history := hm.1
  let mgr2 := hm.2
  if is_closing_message prompt then
    let resp := env.llmClosing
    (⟨true, resp, false, some intent⟩,
     update_conversation_history mgr2 sid history prompt resp now,
     [Effect.embedding, Effect.completion])
  else if is_sync_ready env then
    let r := processPromptReady env mgr2 sid history prompt intent now
    (r.1, r.2.1, Effect.embedding :: r.2.2)
  else
    (⟨true,
      if detect_language prompt = "tagalog" then tagalogLoadingMessage
      else englishLoadingMessage,
      false, some intent⟩,
     mgr2, [Effect.embedding])

/-! ### Supporting lemmas -/

theorem length_pySliceLast_le {k : Nat} (hk : k ≠ 0) (l : List α) :
    (pySliceLast k l).length ≤ k := by
  unfold pySliceLast
  rw [if_neg hk, List.length_drop]
  omega

theorem sessionInvB_iff (m : SessionManager) :
    sessionInvB m = true ↔
      ∀ p ∈ m.sessions, p.2.history.length ≤ 2 * m.max_history_per_session := by
  simp [sessionInvB, List.all_eq_true]

theorem sessionInvB_setSession {m : SessionManager} {sid : String} {s : Session}
    (hm : sessionInvB m = true)
    (hs : s.history.length ≤ 2 * m.max_history_per_session) :
    sessionInvB (setSession m sid s) = true := by
  rw [sessionInvB_iff] at hm ⊢
  intro p hp
  simp only [setSession, List.mem_map] at hp
  obtain ⟨p0, hp0, rfl⟩ := hp
  by_cases h : p0.1 = sid
  · simpa [h] using hs
  · simpa [h] using hm p0 hp0

theorem max_history_applySMOp (m : SessionManager) (op : SMOp) :
    (applySMOp m op).max_history_per_session = m.max_history_per_session := by
  cases op with
  | add sid role content now =>
    simp only [applySMOp, add_to_history]
    cases lookupSession m sid <;> rfl
  | update sid history now =>
    simp only [applySMOp, update_history]
    cases lookupSession m sid <;> rfl

theorem applySMOp_inv {m : SessionManager} (hmax : 1 ≤ m.max_history_per_session)
    (hm : sessionInvB m = true) (op : SMOp) :
    sessionInvB (applySMOp m op) = true := by
  cases op with
  | add sid role content now =>
    simp only [applySMOp, add_to_history]
    cases hl : lookupSession m sid with
    | none => exact hm
    | some s =>
      apply sessionInvB_setSession hm
      simp only
      split
      · have h := length_pySliceLast_le (k := m.max_history_per_session * 2)
          (by omega) (s.history ++ [⟨role, content⟩])
        omega
      · omega
  | update sid history now =>
    simp only [applySMOp, update_history]
    cases hl : lookupSession m sid with
    | none => exact hm
    | some s =>
      apply sessionInvB_setSession hm
      simp only
      split
      · simp
      · have h := length_pySliceLast_le (k := m.max_history_per_session * 2)
          (by omega) history
        omega

theorem applySMOps_inv {m : SessionManager} (hmax : 1 ≤ m.max_history_per_session)
    (hm : sessionInvB m = true) (ops : List SMOp) :
    sessionInvB (applySMOps m ops) = true := by
  induction ops generalizing m with
  | nil => exact hm
  | cons op ops ih =>
    have h1 := applySMOp_inv hmax hm op
    have h2 : 1 ≤ (applySMOp m op).max_history_per_session := by
      rw [max_history_applySMOp]; exact hmax
    simpa [applySMOps] using ih h2 h1

/-! ### Claim C10 -/

/-- C10: for every session-store state and every session id not present
in the store, `add_to_history` returns `False` and leaves the store
completely unchanged — no session is created and no existing session's
history, timestamps or metadata are touched. -/
theorem c10_add_to_history_unknown_session
    (m : SessionManager) (sid role content : String) (now : Nat)
    (h : lookupSession m sid = none) :
    add_to_history m sid role content now = (false, m) := by
  unfold add_to_history
  rw [h]

/-- Witness for C10 at a concrete store without the session. -/
theorem c10_add_to_history_unknown_session_witness :
    lookupSession ⟨4, [("other", ⟨[⟨"user", "hi"⟩], none, 0, 0⟩)]⟩ "missing" = none ∧
    add_to_history ⟨4, [("other", ⟨[⟨"user", "hi"⟩], none, 0, 0⟩)]⟩ "missing"
        "user" "hello" 7 =
      (false, ⟨4, [("other", ⟨[⟨"user", "hi"⟩], none, 0, 0⟩)]⟩) :=
  ⟨by decide, c10_add_to_history_unknown_session _ _ _ _ _ (by decide)⟩

/-! ### Claim C4 -/

/-- C4: over every sequence of `add_to_history` / `update_history`
operations on a store with a positive `max_history_per_session`, every
session's history length stays bounded by `2 * max_history_per_session`;
and appending ten messages one at a time to a freshly created session
with the default bound 4 leaves exactly the most recent eight messages,
in their original relative order. -/
theorem c4_history_bound_and_trim :
    (∀ (m : SessionManager) (ops : List SMOp),
      1 ≤ m.max_history_per_session → sessionInvB m = true →
      sessionInvB (applySMOps m ops) = true) ∧
    (get_session_history
        (applySMOps (create_session ⟨4, []⟩ "s" none 0)
          [SMOp.add "s" "user" "m1" 0, SMOp.add "s" "user" "m2" 0,
           SMOp.add "s" "user" "m3" 0, SMOp.add "s" "user" "m4" 0,
           SMOp.add "s" "user" "m5" 0, SMOp.add "s" "user" "m6" 0,
           SMOp.add "s" "user" "m7" 0, SMOp.add "s" "user" "m8" 0,
           SMOp.add "s" "user" "m9" 0, SMOp.add "s" "user" "m10" 0]) "s" 0).1 =
      [⟨"user", "m3"⟩, ⟨"user", "m4"⟩, ⟨"user", "m5"⟩, ⟨"user", "m6"⟩,
       ⟨"user", "m7"⟩, ⟨"user", "m8"⟩, ⟨"user", "m9"⟩, ⟨"user", "m10"⟩] :=
  ⟨fun _ ops hmax hm => applySMOps_inv hmax hm ops, by decide⟩

/-- Witness for C4 at a concrete store and operation sequence. -/
theorem c4_history_bound_and_trim_witness :
    sessionInvB (applySMOps ⟨4, [("s", ⟨[], none, 0, 0⟩)]⟩
      [SMOp.add "s" "user" "hello" 1, SMOp.update "s" [⟨"user", "x"⟩] 2]) = true :=
  c4_history_bound_and_trim.1 ⟨4, [("s", ⟨[], none, 0, 0⟩)]⟩ _ (by decide) (by decide)

/-! ### Claim C8 -/

/-- C8: a message passes the closing-message test exactly when its
normalisation (lower-case, trim surrounding whitespace, strip trailing
exclamation marks) equals a member of the fixed farewell or
acknowledgement phrase sets — never by substring containment: `"thanks"`
closes, while `"thanks for explaining that subject"`, which merely
contains `"thanks"`, does not. -/
theorem c8_closing_message_exactness :
    (∀ prompt : String, is_closing_message prompt = true ↔
      normaliseClosing prompt ∈ closingKeywords ∨
        normaliseClosing prompt ∈ softClosingPhrases) ∧
    is_closing_message "thanks" = true ∧
    (strContains "thanks for explaining that subject" "thanks" = true ∧
      is_closing_message "thanks for explaining that subject" = false) := by
  refine ⟨fun prompt => ?_, by decide, by decide, by decide⟩
  simp [is_closing_message]

/-! ### Claim C6 -/

/-- C6: `should_include_archived` returns the year-specific parameters
for any query with a literal in-range 4-digit year, archived-only mode
for historical-keyword queries without current keywords, include-both
mode when both keyword kinds occur, and current-only mode otherwise; in
particular on the three cited example queries. -/
theorem c6_should_include_archived_modes :
    (∀ (q : String) (y : Nat), firstYearMatch q = some y →
      should_include_archived q = ⟨true, false, some y, true⟩) ∧
    (∀ q : String, firstYearMatch q = none → hasHistoricalB q = true →
      hasCurrentB q = false →
      should_include_archived q = ⟨true, true, none, false⟩) ∧
    (∀ q : String, firstYearMatch q = none → hasHistoricalB q = true →
      hasCurrentB q = true →
      should_include_archived q = ⟨true, false, none, false⟩) ∧
    (∀ q : String, firstYearMatch q = none → hasHistoricalB q = false →
      should_include_archived q = ⟨false, false, none, false⟩) ∧
    should_include_archived "What was the tuition fee in 2019?" =
      ⟨true, false, some 2019, true⟩ ∧
    should_include_archived "What is the current tuition fee?" =
      ⟨false, false, none, false⟩ ∧
    should_include_archived "What was the old enrollment process?" =
      ⟨true, true, none, false⟩ := by
  refine ⟨?_, ?_, ?_, ?_, by decide, by decide, by decide⟩
  · intro q y h
    simp [should_include_archived, h]
  · intro q h1 h2 h3
    simp [should_include_archived, h1, h2, h3]
  · intro q h1 h2 h3
    simp [should_include_archived, h1, h2, h3]
  · intro q h1 h2
    simp [should_include_archived, h1, h2]

/-- Witness for C6: the year branch applied at the 2019 example. -/
theorem c6_should_include_archived_modes_witness :
    firstYearMatch "Paano ang enrollment noong 2015?" = some 2015 ∧
    should_include_archived "Paano ang enrollment noong 2015?" =
      ⟨true, false, some 2015, true⟩ :=
  ⟨by decide, c6_should_include_archived_modes.1 _ 2015 (by decide)⟩

/-! ### Claim C2 -/

/-- C2 counterexample: a course document with no revision cue and no
program keyword gets chunk metadata whose `revision_year` is the absent
value (not the `0` sentinel) and whose `program_id` is the absent value
(not the empty string). -/
theorem c2_sentinel_counterexample :
    (chunk_and_store_documents (fun c => [c]) 2026
        [⟨"course_9", "Untitled Document", "hello world", "course", 0⟩]
        (fun _ => none)).2.1.map (fun m => (m.revision_year, m.program_id)) =
      [(none, none)] ∧
    (none : Option Nat) ≠ some 0 ∧
    (none : Option String) ≠ some "" := by
  refine ⟨by decide, by decide, by decide⟩

/-- C2 (amended): every chunk metadata record stores the raw
possibly-absent extraction results — `revision_year` is exactly the
extracted optional year (absent when no revision cue matches, not `0`)
and `program_id` is exactly the optional program identifier for course
documents (absent when no keyword matches, not the empty string) and
absent for non-course documents. -/
theorem c2_metadata_raw_optionals
    (splitText : String → List String) (now : Nat) (docs : List SrcDoc)
    (archiveStatus : String → Option ArchiveInfo) (m : ChunkMeta)
    (hm : m ∈ (chunk_and_store_documents splitText now docs archiveStatus).2.1) :
    ∃ d ∈ docs, m.source_id = d.id ∧
      m.revision_year = (extract_all_revision_info now d.content).year ∧
      m.program_id =
        (if d.type = "course" then extract_program_identifier d.content d.name
         else none) := by
  simp only [chunk_and_store_documents, List.map_map, List.mem_map] at hm
  obtain ⟨t, ht, rfl⟩ := hm
  rw [List.mem_flatMap] at ht
  obtain ⟨d, hd, htr⟩ := ht
  refine ⟨d, hd, ?_⟩
  simp only [docChunkTriples, List.mem_map] at htr
  obtain ⟨p, _, rfl⟩ := htr
  exact ⟨rfl, rfl, rfl⟩

/-- Witness for C2 (amended) at a concrete one-document sync. -/
theorem c2_metadata_raw_optionals_witness :
    ∃ d ∈ [(⟨"course_9", "Untitled Document", "hello world", "course", 0⟩ : SrcDoc)],
      (⟨"course_9", "course", "Untitled Document", 0, false, "current",
        none, none⟩ : ChunkMeta).source_id = d.id ∧
      (⟨"course_9", "course", "Untitled Document", 0, false, "current",
        none, none⟩ : ChunkMeta).revision_year =
          (extract_all_revision_info 2026 d.content).year ∧
      (⟨"course_9", "course", "Untitled Document", 0, false, "current",
        none, none⟩ : ChunkMeta).program_id =
        (if d.type = "course" then extract_program_identifier d.content d.name
         else none) :=
  c2_metadata_raw_optionals (fun c => [c]) 2026
    [⟨"course_9", "Untitled Document", "hello world", "course", 0⟩]
    (fun _ => none) _ (by decide)

/-! ### Claim C1 -/

/-- C1 counterexample: a sync run whose document-collection step yields
zero documents is reported as a failure — `sync_data_to_chromadb`
returns `False` right after the collection cleanup — not as a completed
no-op. -/
theorem c1_zero_documents_counterexample :
    sync_data_to_chromadb ⟨true, [], [], [], []⟩ =
      (false, [SyncStep.cleanupCollections]) := by
  decide

/-- C1 (amended): for every sync run in which the document-collection
step yields zero documents, `sync_data_to_chromadb` reports the run as a
failure (returns `False`), after the collection cleanup but before the
archive write-back and before deleting, recreating or writing the
canonical collection. -/
theorem c1_zero_documents_failure (env : SyncEnv)
    (hdb : env.dbOk = true) (hempty : env.collectedDocuments = []) :
    sync_data_to_chromadb env = (false, [SyncStep.cleanupCollections]) := by
  unfold sync_data_to_chromadb
  rw [hdb, hempty]
  simp

/-- Witness for C1 (amended) at a concrete environment. -/
theorem c1_zero_documents_failure_witness :
    sync_data_to_chromadb ⟨true, [], [], ["stale_id"], [("handbook_1", true)]⟩ =
      (false, [SyncStep.cleanupCollections]) :=
  c1_zero_documents_failure ⟨true, [], [], ["stale_id"], [("handbook_1", true)]⟩
    rfl rfl

/-! ### Claim C3 -/

/-- C3 counterexample: while the sync pipeline is not ready, a closing
message ("bye") is answered by the closing short-circuit — which invokes
the completion model — instead of the canned still-loading message,
because the closing check precedes the sync-readiness guard. -/
theorem c3_loading_guard_counterexample :
    (let env : Env :=
      ⟨"general", "idle", some 0, "Take care, and good luck!", "Yes.",
        none, none, "Here.", fun _ _ => emptyResult⟩
     is_sync_ready env = false ∧
     (process_prompt env ⟨4, []⟩ ⟨"bye", "s1", none⟩ 0).1.response ≠
       englishLoadingMessage ∧
     (process_prompt env ⟨4, []⟩ ⟨"bye", "s1", none⟩ 0).1.response ≠
       tagalogLoadingMessage ∧
     Effect.completion ∈ (process_prompt env ⟨4, []⟩ ⟨"bye", "s1", none⟩ 0).2.2) := by
  decide

/-- Helper: the stated not-ready condition forces `is_sync_ready` false. -/
theorem is_sync_ready_eq_false {env : Env}
    (h : env.syncStatus ≠ "completed" ∨ ∀ c, env.collectionCount = some c → c ≤ 1) :
    is_sync_ready env = false := by
  unfold is_sync_ready
  by_cases hs : env.syncStatus = "completed"
  · rw [if_pos hs]
    rcases h with h | h
    · exact absurd hs h
    · cases hc : env.collectionCount with
      | none => rfl
      | some c =>
        have := h c hc
        simp
        omega
  · rw [if_neg hs]

/-- C3 (amended): for every chat request whose trimmed prompt is not a
closing message, processed while the sync pipeline has not reported
status "completed" or the vector collection holds at most one item (or
is unreadable), `process_prompt` returns the canned still-loading
message — Tagalog exactly when the detected language is Tagalog — as a
successful response, without invoking the completion model and without
performing any vector-store retrieval. -/
theorem c3_loading_guard (env : Env) (mgr : SessionManager)
    (req : PromptRequest) (now : Nat)
    (hready : env.syncStatus ≠ "completed" ∨
      ∀ c, env.collectionCount = some c → c ≤ 1)
    (hclosing : is_closing_message (pyStrip req.prompt) = false) :
    (process_prompt env mgr req now).1.response =
      (if detect_language (pyStrip req.prompt) = "tagalog" then tagalogLoadingMessage
       else englishLoadingMessage) ∧
    (process_prompt env mgr req now).1.success = true ∧
    Effect.completion ∉ (process_prompt env mgr req now).2.2 ∧
    Effect.vectorQuery ∉ (process_prompt env mgr req now).2.2 := by
  have hr := is_sync_ready_eq_false hready
  simp only [process_prompt, hclosing, hr, Bool.false_eq_true, if_false]
  simp

/-- Witness for C3 (amended) at a concrete non-closing request with the
sync status still "running". -/
theorem c3_loading_guard_witness :
    (process_prompt
        ⟨"general", "running", some 5, "Bye!", "Yes.", none, none, "Here.",
          fun _ _ => emptyResult⟩
        ⟨4, []⟩ ⟨"what are the enrollment requirements", "s1", none⟩ 0).1.response =
      (if detect_language (pyStrip "what are the enrollment requirements") = "tagalog"
       then tagalogLoadingMessage else englishLoadingMessage) ∧
    (process_prompt
        ⟨"general", "running", some 5, "Bye!", "Yes.", none, none, "Here.",
          fun _ _ => emptyResult⟩
        ⟨4, []⟩ ⟨"what are the enrollment requirements", "s1", none⟩ 0).1.success = true ∧
    Effect.completion ∉ (process_prompt
        ⟨"general", "running", some 5, "Bye!", "Yes.", none, none, "Here.",
          fun _ _ => emptyResult⟩
        ⟨4, []⟩ ⟨"what are the enrollment requirements", "s1", none⟩ 0).2.2 ∧
    Effect.vectorQuery ∉ (process_prompt
        ⟨"general", "running", some 5, "Bye!", "Yes.", none, none, "Here.",
          fun _ _ => emptyResult⟩
        ⟨4, []⟩ ⟨"what are the enrollment requirements", "s1", none⟩ 0).2.2 :=
  c3_loading_guard _ _ _ _ (Or.inl (by decide)) (by decide)

/-! ### Claim C7 -/

/-- C7: a retrieved chunk is admitted into the context exactly when its
derived similarity `1 - distance/2` is at least the active threshold —
for well-formed result sets (a distance per document, no blank chunk
texts) the admission loop equals a similarity filter; at the default
0.30 threshold a chunk at distance 0.2 is kept and a chunk at distance
1.6 is dropped; translated queries use the 0.25 threshold. -/
theorem c7_relevance_filter :
    (∀ (threshold : ℚ) (docs : List String) (dists : List ℚ),
      dists.length = docs.length →
      (∀ d ∈ docs, pyStrip d ≠ "") →
      extractLoop threshold docs dists =
        ((docs.zip dists).filter
          (fun p => decide (threshold ≤ 1 - p.2 / 2))).map (fun p => pyStrip p.1)) ∧
    extract_context_from_results
        ⟨[["chunk X", "chunk Y"]], [[]], [[1/5, 8/5]]⟩ RELEVANCE_THRESHOLD =
      "chunk X" ∧
    (∀ retrievalQuery translatedQuery : String, translatedQuery ≠ retrievalQuery →
      activeThreshold retrievalQuery translatedQuery = TRANSLATED_RELEVANCE_THRESHOLD) ∧
    (∀ q : String, activeThreshold q q = RELEVANCE_THRESHOLD) := by
  refine ⟨?_, ?_, ?_, ?_⟩
  · intro threshold docs
    induction docs with
    | nil => intro dists _ _; cases dists <;> rfl
    | cons d ds ih =>
      intro dists hlen hne
      cases dists with
      | nil => simp at hlen
      | cons q qs =>
        have hd := hne d (List.mem_cons_self d ds)
        have hrec := ih qs (by simpa using hlen)
          (fun x hx => hne x (List.mem_cons_of_mem d hx))
        by_cases hq : 1 - q / 2 < threshold
        · have hq' : ¬ threshold ≤ 1 - q / 2 := not_le.mpr hq
          simp [extractLoop, hd, hq, hq', hrec]
        · have hq' : threshold ≤ 1 - q / 2 := not_lt.mp hq
          simp [extractLoop, hd, hq, hq', hrec]
  · have hne1 : ¬ (pyStrip "chunk X" = "") := by decide
    have hs1 : pyStrip "chunk X" = "chunk X" := by decide
    have h1 : ¬ ((1 : ℚ) - 1/5 / 2 < RELEVANCE_THRESHOLD) := by
      norm_num [RELEVANCE_THRESHOLD]
    have h2 : (1 : ℚ) - 8/5 / 2 < RELEVANCE_THRESHOLD := by
      norm_num [RELEVANCE_THRESHOLD]
    have hx : ("chunk X" : String) ≠ "" := by decide
    simp only [extract_context_from_results, firstRow, extractLoop,
      List.head?, Option.getD, hne1, hs1, h1, h2, if_false, if_true,
      ite_self, hx]
    decide
  · intro rq tq h
    simp [activeThreshold, h]
  · intro q
    simp [activeThreshold]

/-- Witness for C7 at the cited distances 0.2 and 1.6 with the default
threshold. -/
theorem c7_relevance_filter_witness :
    [(1 : ℚ) / 5, 8 / 5].length = ["chunk X", "chunk Y"].length ∧
    extractLoop RELEVANCE_THRESHOLD ["chunk X", "chunk Y"] [1/5, 8/5] =
      (([("chunk X", (1 : ℚ)/5), ("chunk Y", 8/5)].filter
        (fun p => decide (RELEVANCE_THRESHOLD ≤ 1 - p.2 / 2))).map
          (fun p => pyStrip p.1)) :=
  ⟨rfl, c7_relevance_filter.1 RELEVANCE_THRESHOLD _ _ rfl (by decide)⟩

/-! ### Claim C9 -/

theorem dotProd_comm (v w : List ℝ) : dotProd v w = dotProd w v := by
  unfold dotProd
  rw [List.zipWith_comm_of_comm]
  exact mul_comm

theorem dotProd_self_nonneg (v : List ℝ) : 0 ≤ dotProd v v := by
  induction v with
  | nil => simp [dotProd]
  | cons a tl ih =>
    have hsplit : dotProd (a :: tl) (a :: tl) = a * a + dotProd tl tl := by
      simp [dotProd]
    rw [hsplit]
    exact add_nonneg (mul_self_nonneg a) ih

theorem dotProd_self_pos {v : List ℝ} {x : ℝ} (hx : x ∈ v) (hx0 : x ≠ 0) :
    0 < dotProd v v := by
  induction v with
  | nil => cases hx
  | cons a tl ih =>
    have hsplit : dotProd (a :: tl) (a :: tl) = a * a + dotProd tl tl := by
      simp [dotProd]
    rw [hsplit]
    rcases List.mem_cons.mp hx with rfl | hmem
    · exact add_pos_of_pos_of_nonneg (mul_self_pos.mpr hx0) (dotProd_self_nonneg tl)
    · exact add_pos_of_nonneg_of_pos (mul_self_nonneg a) (ih hmem)

/-- C9: over the real-number model of the float arithmetic,
`calculate_cosine_similarity` is symmetric, equals the dot product over
the product of Euclidean norms whenever both norms are non-zero, returns
exactly 0 when either norm is zero, and returns 1 for a non-zero vector
compared with itself. -/
theorem c9_cosine_similarity_algebra :
    (∀ v w : List ℝ, calculate_cosine_similarity v w = calculate_cosine_similarity w v) ∧
    (∀ v w : List ℝ, euclidNorm v = 0 ∨ euclidNorm w = 0 →
      calculate_cosine_similarity v w = 0) ∧
    (∀ v w : List ℝ, euclidNorm v ≠ 0 → euclidNorm w ≠ 0 →
      calculate_cosine_similarity v w = dotProd v w / (euclidNorm v * euclidNorm w)) ∧
    (∀ v : List ℝ, (∃ x ∈ v, x ≠ 0) → calculate_cosine_similarity v v = 1) := by
  refine ⟨?_, ?_, ?_, ?_⟩
  · intro v w
    unfold calculate_cosine_similarity
    by_cases h : euclidNorm v = 0 ∨ euclidNorm w = 0
    · rw [if_pos h, if_pos (Or.symm h)]
    · rw [if_neg h, if_neg (fun hc => h (Or.symm hc))]
      rw [dotProd_comm, mul_comm]
  · intro v w h
    unfold calculate_cosine_similarity
    rw [if_pos h]
  · intro v w hv hw
    unfold calculate_cosine_similarity
    rw [if_neg (by tauto)]
  · intro v hv
    obtain ⟨x, hx, hx0⟩ := hv
    have hpos : 0 < dotProd v v := dotProd_self_pos hx hx0
    have hnorm : 0 < euclidNorm v := Real.sqrt_pos.mpr hpos
    unfold calculate_cosine_similarity
    rw [if_neg (by simp [hnorm.ne'])]
    unfold euclidNorm
    rw [Real.mul_self_sqrt hpos.le]
    exact div_self hpos.ne'

/-- Witness for C9: self-similarity 1 at the vector `[1]` and the
zero-norm guard at `[1]` against `[0]`. -/
theorem c9_cosine_similarity_algebra_witness :
    calculate_cosine_similarity [(1 : ℝ)] [1] = 1 ∧
    calculate_cosine_similarity [(1 : ℝ)] [0] = 0 :=
  ⟨c9_cosine_similarity_algebra.2.2.2 [1] ⟨1, by simp, one_ne_zero⟩,
   c9_cosine_similarity_algebra.2.1 [1] [0]
     (Or.inr (by simp [euclidNorm, dotProd]))⟩

/-! ### Claim C5 -/

theorem lexLe4_refl (x : Nat × Nat × Nat × Nat) : lexLe4 x x = true := by
  simp [lexLe4]

theorem lexLe4_total (x y : Nat × Nat × Nat × Nat) :
    lexLe4 x y = true ∨ lexLe4 y x = true := by
  simp only [lexLe4, Bool.or_eq_true, Bool.and_eq_true, decide_eq_true_eq]
  omega

theorem lexLe4_trans {x y z : Nat × Nat × Nat × Nat}
    (h1 : lexLe4 x y = true) (h2 : lexLe4 y z = true) : lexLe4 x z = true := by
  simp only [lexLe4, Bool.or_eq_true, Bool.and_eq_true, decide_eq_true_eq] at h1 h2 ⊢
  omega

instance : IsTotal RankedDoc rankGE :=
  ⟨fun a b => (lexLe4_total (rankKey b) (rankKey a)).imp id id⟩

instance : IsTrans RankedDoc rankGE :=
  ⟨fun _ _ _ hab hbc => lexLe4_trans hbc hab⟩

/-- C5: for every batch grouped by `determine_archive_status`, a
singleton group's document is marked not archived; a group of two or
more documents is ranked descending by the tuple
`(has_revision_info, revision_year, mentions, updated_at)` — a missing
revision year comparing as 0 — and exactly the top-ranked document
(whose key is lexicographically maximal in the group) is marked current
while every other document of the group is marked archived; each
group's statuses are part of the full archive-status map. -/
theorem c5_determine_archive_status
    (now : Nat) (docs : List SrcDoc) (k : String) (g : List SrcDoc)
    (hkg : (k, g) ∈ group_similar_documents docs) :
    (∀ d, g = [d] → archiveGroupStatuses now g = [(d.id, false)]) ∧
    (2 ≤ g.length →
      ∃ top rest,
        archiveGroupStatuses now g =
          (top.id, false) :: rest.map (fun r => (r.id, true)) ∧
        (top :: rest).Perm (g.map (enrichDoc now)) ∧
        ∀ e ∈ g.map (enrichDoc now), lexLe4 (rankKey e) (rankKey top) = true) ∧
    (∀ s ∈ archiveGroupStatuses now g, s ∈ determine_archive_status now docs) := by
  refine ⟨?_, ?_, ?_⟩
  · rintro d rfl
    rfl
  · intro hlen
    rcases g with _ | ⟨a, _ | ⟨b, t⟩⟩
    · simp at hlen
    · simp at hlen
    · have heq : archiveGroupStatuses now (a :: b :: t) =
          rankedStatuses
            (List.insertionSort rankGE ((a :: b :: t).map (enrichDoc now))) := rfl
      have hperm :
          (List.insertionSort rankGE ((a :: b :: t).map (enrichDoc now))).Perm
            ((a :: b :: t).map (enrichDoc now)) := List.perm_insertionSort _ _
      have hsorted :=
        List.sorted_insertionSort rankGE ((a :: b :: t).map (enrichDoc now))
      cases hr : List.insertionSort rankGE ((a :: b :: t).map (enrichDoc now)) with
      | nil =>
        rw [hr] at hperm
        have := hperm.length_eq
        simp at this
      | cons top rest =>
        rw [hr] at hperm hsorted
        refine ⟨top, rest, ?_, hperm, ?_⟩
        · rw [heq, hr]
          rfl
        · intro e he
          have hmem : e ∈ top :: rest := hperm.mem_iff.mpr he
          rcases List.mem_cons.mp hmem with rfl | hrest
          · exact lexLe4_refl _
          · exact (List.sorted_cons.mp hsorted).1 e hrest
  · intro s hs
    unfold determine_archive_status
    exact List.mem_flatMap.mpr ⟨(k, g), hkg, hs⟩

/-- Witness for C5: a concrete one-handbook batch whose single group is
a singleton marked current. -/
theorem c5_determine_archive_status_witness :
    ("handbook_unknown",
      [(⟨"handbook_7", "Campus Manual", "hello", "handbook", 3⟩ : SrcDoc)]) ∈
      group_similar_documents
        [(⟨"handbook_7", "Campus Manual", "hello", "handbook", 3⟩ : SrcDoc)] ∧
    archiveGroupStatuses 2026
        [(⟨"handbook_7", "Campus Manual", "hello", "handbook", 3⟩ : SrcDoc)] =
      [("handbook_7", false)] :=
  ⟨by decide,
   (c5_determine_archive_status 2026
      [⟨"handbook_7", "Campus Manual", "hello", "handbook", 3⟩]
      "handbook_unknown"
      [⟨"handbook_7", "Campus Manual", "hello", "handbook", 3⟩]
      (by decide)).1 _ rfl⟩
